import Mathlib

/-!
Verification of the stats-task decision and lifecycle component
(`internal/orchestrator/taskstats.go`) of the backrest orchestrator.

The decision engine (`StatsTask.shouldRun`), the poll entry point
(`StatsTask.Next`) and the execution entry point (`StatsTask.Run`) are
embedded as pure Lean functions.  Collaborators that live outside the
file under study (the operation log's bounded reverse iteration, the
run wrapper of `TaskWithOperation`, the repo accessor) are modelled
from the specification and marked as such in their doc comments.
-/

namespace Backrest

/-- Operation status enum (`v1.OperationStatus`). -/
inductive OperationStatus
  | unknown
  | pending
  | inprogress
  | success
  | error
  deriving DecidableEq, Repr

/-- The `LastStatus.Entry` variant of a backup operation's progress
(`v1.BackupProgressEntry`): either a terminal summary carrying the bytes
added, or an intermediate status record. -/
inductive BackupEntry
  | summary (dataAdded : Int)
  | status
  deriving DecidableEq, Repr

/-- The tagged payload variant of an operation (`v1.Operation.Op`):
`stats` (`v1.Operation_OperationStats`, carrying the result once computed),
`backup` (`v1.Operation_OperationBackup`, with its optional last progress
entry), or any other operation kind. -/
inductive OperationPayload
  | stats (result : Option Nat)
  | backup (lastStatus : Option BackupEntry)
  | other
  deriving DecidableEq, Repr

/-- An operation record (`v1.Operation`), with the fields this component
reads or writes. -/
structure Operation where
  planId : String
  repoId : String
  snapshotId : String
  unixTimeStartMs : Int
  status : OperationStatus
  op : OperationPayload
  deriving DecidableEq, Repr

/-- `statBytesThreshold = 10 * 1024 * 1024 * 1024` (10 GiB added). -/
def statBytesThreshold : Int := 10 * 1024 * 1024 * 1024

/-- `statOperationsThreshold = 100` (run a stat command every 100 operations). -/
def statOperationsThreshold : Nat := 100

/-- The status test on line 48 of `taskstats.go`: an operation is unsettled
when its status is `STATUS_PENDING` or `STATUS_INPROGRESS`. -/
def isUnsettled (op : Operation) : Bool :=
  decide (op.status = OperationStatus.pending ∨ op.status = OperationStatus.inprogress)

/-- The accumulator state of `StatsTask.shouldRun`: `bytesSinceLastStat`
(initialised to the sentinel `-1`) and `howFarBack`. -/
structure ScanState where
  bytesSinceLastStat : Int
  howFarBack : Nat
  deriving DecidableEq, Repr

/-- The visitor body of the `ForEachByRepo` call in `StatsTask.shouldRun`
(lines 47-62): skip unsettled operations; count every settled operation in
`howFarBack`; at a `Stats` operation clear the sentinel to 0 if still set and
stop; at a `Backup` operation whose last status is a terminal summary add its
`DataAdded` to the accumulator.  The returned boolean is the stop signal
(`oplog.ErrStopIteration`). -/
def statsVisitor (st : ScanState) (op : Operation) : ScanState × Bool :=
  if isUnsettled op then (st, false)
  else
    let st : ScanState := { st with howFarBack := st.howFarBack + 1 }
    match op.op with
    | OperationPayload.stats _ =>
        (if st.bytesSinceLastStat = -1 then { st with bytesSinceLastStat := 0 } else st, true)
    | OperationPayload.backup (some (BackupEntry.summary d)) =>
        ({ st with bytesSinceLastStat := st.bytesSinceLastStat + d }, false)
    | _ => (st, false)

/-- Runs the visitor over the delivered window, honouring its stop signal. -/
def runScan : ScanState → List Operation → ScanState
  | st, [] => st
  | st, op :: rest =>
    match statsVisitor st op with
    | (st', true) => st'
    | (st', false) => runScan st' rest

/-- Modelled from the spec: the operation log's bounded reverse iteration
(`OpLog.ForEachByRepo` with `indexutil.Reversed (indexutil.CollectLastN k)`,
whose sources are not part of the file under study).  Per the spec the
iteration visits the repository's entries newest to oldest, "bounded to the
most recent K entries ... that are not themselves unsettled
(PENDING/IN_PROGRESS entries are skipped and do not consume the bound)".
The input list is the repository's history, newest first; the delivered
window keeps interleaved unsettled entries (the visitor skips them) but only
settled entries consume the bound. -/
def takeSettledBound : Nat → List Operation → List Operation
  | _, [] => []
  | 0, _ => []
  | k + 1, op :: rest =>
    if isUnsettled op then op :: takeSettledBound (k + 1) rest
    else op :: takeSettledBound k rest

/-- `StatsTask.shouldRun` (lines 44-77) for a given entry bound `k` and byte
threshold `thr`, applied to the repository's history (newest first): run the
scan over the bounded window, then return true when `howFarBack` reached the
bound, or when the accumulator still holds the sentinel `-1`, or when it
exceeds the byte threshold; otherwise false. -/
def shouldRunScan (k : Nat) (thr : Int) (log : List Operation) : Bool :=
  let st := runScan { bytesSinceLastStat := -1, howFarBack := 0 } (takeSettledBound k log)
  if st.howFarBack ≥ k then true
  else if st.bytesSinceLastStat = -1 ∨ st.bytesSinceLastStat > thr then true
  else false

/-- `StatsTask.shouldRun` at the production thresholds. -/
def shouldRun (log : List Operation) : Bool :=
  shouldRunScan statOperationsThreshold statBytesThreshold log

/-- Whether the scan of a delivered window encounters a settled `Stats`
operation (the baseline) before the window ends. -/
def statsFoundIn : List Operation → Bool
  | [] => false
  | op :: rest =>
    if isUnsettled op then statsFoundIn rest
    else
      match op.op with
      | OperationPayload.stats _ => true
      | _ => statsFoundIn rest

/-- The number of settled entries the scan of a window examines: every
settled entry up to and including the baseline `Stats` operation, at which
the scan stops. -/
def scannedCount : List Operation → Nat
  | [] => 0
  | op :: rest =>
    if isUnsettled op then scannedCount rest
    else
      match op.op with
      | OperationPayload.stats _ => 1
      | _ => 1 + scannedCount rest

/-- The total bytes of terminal backup summaries the scan of a window
examines strictly before reaching the baseline `Stats` operation (all such
bytes are post-baseline in time, the window being newest first). -/
def preBaselineBytes : List Operation → Int
  | [] => 0
  | op :: rest =>
    if isUnsettled op then preBaselineBytes rest
    else
      match op.op with
      | OperationPayload.stats _ => 0
      | OperationPayload.backup (some (BackupEntry.summary d)) => d + preBaselineBytes rest
      | _ => preBaselineBytes rest

/-- The accumulator value the scan of a window ends with, expressed in terms
of `statsFoundIn` and `preBaselineBytes`: the sentinel `-1` is accumulated
into by every terminal summary, and is cleared to `0` at the baseline only
when still intact, so the final value is `0` when a baseline was found with
zero bytes before it, and the byte total minus one otherwise. -/
def baselineAccumulator (w : List Operation) : Int :=
  if statsFoundIn w = true ∧ preBaselineBytes w = 0 then 0
  else preBaselineBytes w - 1

/-- The decision predicate claim C1 describes, following its words: true when
(a) the count of settled entries scanned reaches the bound without a `Stats`
operation ever being found, or (b) no `Stats` operation was found at all
within the scanned window, or (c) the accumulated terminal-summary bytes
exceed the byte threshold. -/
def shouldRunClaimC1 (log : List Operation) : Bool :=
  let w := takeSettledBound statOperationsThreshold log
  (decide (statOperationsThreshold ≤ scannedCount w) && !statsFoundIn w)
    || !statsFoundIn w
    || decide (statBytesThreshold < preBaselineBytes w)

/-- The decision predicate that actually matches the code: true when the
settled-entry count reaches the bound (whether or not the bound-consuming
entry is the baseline `Stats` operation itself), or the accumulator is still
the sentinel `-1` (no baseline and zero bytes accumulated), or the
accumulator (byte total minus one when any bytes preceded the baseline)
exceeds the byte threshold. -/
def shouldRunAmendedSpec (log : List Operation) : Bool :=
  let w := takeSettledBound statOperationsThreshold log
  decide (statOperationsThreshold ≤ scannedCount w)
    || decide (baselineAccumulator w = -1)
    || decide (statBytesThreshold < baselineAccumulator w)

/-- A settled backup operation whose last status is a terminal summary that
added `d` bytes. -/
def mkBackupOp (d : Int) : Operation :=
  { planId := "p", repoId := "r", snapshotId := "", unixTimeStartMs := 0,
    status := OperationStatus.success,
    op := OperationPayload.backup (some (BackupEntry.summary d)) }

/-- A settled stats operation. -/
def mkStatsOp : Operation :=
  { planId := "p", repoId := "r", snapshotId := "", unixTimeStartMs := 0,
    status := OperationStatus.success, op := OperationPayload.stats none }

/-- An unsettled (pending) backup operation. -/
def mkPendingOp : Operation :=
  { planId := "p", repoId := "r", snapshotId := "", unixTimeStartMs := 0,
    status := OperationStatus.pending, op := OperationPayload.backup none }

theorem runScan_howFarBack (w : List Operation) (b : Int) (n : Nat) :
    (runScan { bytesSinceLastStat := b, howFarBack := n } w).howFarBack =
      n + scannedCount w := by
  induction w generalizing b n with
  | nil => simp [runScan, scannedCount]
  | cons op rest ih =>
    by_cases hu : isUnsettled op = true
    · simp [runScan, statsVisitor, hu, scannedCount, ih]
    · simp only [Bool.not_eq_true] at hu
      rcases hop : op.op with r | ls | _
      · simp only [runScan, statsVisitor, hu, hop, Bool.false_eq_true, if_false,
          scannedCount]
        split_ifs <;> simp
      · rcases ls with _ | e
        · simp only [runScan, statsVisitor, hu, hop, Bool.false_eq_true, if_false,
            scannedCount]
          rw [ih]
          omega
        · rcases e with d | _
          · simp only [runScan, statsVisitor, hu, hop, Bool.false_eq_true, if_false,
              scannedCount]
            rw [ih]
            omega
          · simp only [runScan, statsVisitor, hu, hop, Bool.false_eq_true, if_false,
              scannedCount]
            rw [ih]
            omega
      · simp only [runScan, statsVisitor, hu, hop, Bool.false_eq_true, if_false,
          scannedCount]
        rw [ih]
        omega

theorem runScan_bytes (w : List Operation) (b : Int) (n : Nat) :
    (runScan { bytesSinceLastStat := b, howFarBack := n } w).bytesSinceLastStat =
      if statsFoundIn w = true ∧ b + preBaselineBytes w = -1 then 0
      else b + preBaselineBytes w := by
  induction w generalizing b n with
  | nil => simp [runScan, statsFoundIn, preBaselineBytes]
  | cons op rest ih =>
    by_cases hu : isUnsettled op = true
    · simp [runScan, statsVisitor, hu, statsFoundIn, preBaselineBytes, ih]
    · simp only [Bool.not_eq_true] at hu
      rcases hop : op.op with r | ls | _
      · simp only [runScan, statsVisitor, hu, hop, Bool.false_eq_true, if_false,
          statsFoundIn, preBaselineBytes]
        split_ifs <;> simp_all <;> omega
      · rcases ls with _ | e
        · simp only [runScan, statsVisitor, hu, hop, Bool.false_eq_true, if_false,
            statsFoundIn, preBaselineBytes]
          rw [ih]
        · rcases e with d | _
          · simp only [runScan, statsVisitor, hu, hop, Bool.false_eq_true, if_false,
              statsFoundIn, preBaselineBytes]
            rw [ih]
            by_cases hsf : statsFoundIn rest = true <;> simp [hsf] <;>
              (try split_ifs) <;> omega
          · simp only [runScan, statsVisitor, hu, hop, Bool.false_eq_true, if_false,
              statsFoundIn, preBaselineBytes]
            rw [ih]
      · simp only [runScan, statsVisitor, hu, hop, Bool.false_eq_true, if_false,
          statsFoundIn, preBaselineBytes]
        rw [ih]

theorem runScan_init_bytes (w : List Operation) :
    (runScan { bytesSinceLastStat := -1, howFarBack := 0 } w).bytesSinceLastStat =
      baselineAccumulator w := by
  rw [runScan_bytes]
  unfold baselineAccumulator
  by_cases hsf : statsFoundIn w = true <;> simp [hsf] <;> (try split_ifs) <;> omega

theorem shouldRunScan_char (k : Nat) (thr : Int) (log : List Operation) :
    shouldRunScan k thr log =
      (decide (k ≤ scannedCount (takeSettledBound k log))
        || decide (baselineAccumulator (takeSettledBound k log) = -1)
        || decide (thr < baselineAccumulator (takeSettledBound k log))) := by
  simp only [shouldRunScan]
  rw [runScan_init_bytes, runScan_howFarBack]
  by_cases h1 : k ≤ scannedCount (takeSettledBound k log) <;>
    by_cases h2 : baselineAccumulator (takeSettledBound k log) = -1 <;>
      by_cases h3 : thr < baselineAccumulator (takeSettledBound k log) <;>
        simp [h1, h2, h3, ge_iff_le, gt_iff_lt]

theorem runScan_filter_settled (st : ScanState) (w : List Operation) :
    runScan st (w.filter (fun op => !isUnsettled op)) = runScan st w := by
  induction w generalizing st with
  | nil => rfl
  | cons op rest ih =>
    by_cases hu : isUnsettled op = true
    · simp [List.filter_cons, hu, runScan, statsVisitor, ih]
    · simp only [List.filter_cons, Bool.not_eq_true] at hu ⊢
      simp only [hu, Bool.not_false, if_true]
      rcases hv : statsVisitor st op with ⟨st', b⟩
      cases b
      · simp [runScan, hv, ih]
      · simp [runScan, hv]

theorem takeSettledBound_filter (k : Nat) (log : List Operation) :
    (takeSettledBound k log).filter (fun op => !isUnsettled op)
      = (log.filter (fun op => !isUnsettled op)).take k := by
  induction log generalizing k with
  | nil => simp [takeSettledBound]
  | cons op rest ih =>
    by_cases hu : isUnsettled op = true
    · cases k with
      | zero => simp [takeSettledBound, List.filter_cons, hu]
      | succ k => simp [takeSettledBound, List.filter_cons, hu, ih]
    · simp only [Bool.not_eq_true] at hu
      cases k with
      | zero => simp [takeSettledBound]
      | succ k => simp [takeSettledBound, List.filter_cons, hu, ih]

theorem takeSettledBound_of_filter (k : Nat) (log : List Operation) :
    takeSettledBound k (log.filter (fun op => !isUnsettled op))
      = (log.filter (fun op => !isUnsettled op)).take k := by
  induction log generalizing k with
  | nil => simp [takeSettledBound]
  | cons op rest ih =>
    by_cases hu : isUnsettled op = true
    · simp [List.filter_cons, hu, ih]
    · simp only [Bool.not_eq_true] at hu
      cases k with
      | zero => simp [takeSettledBound, List.filter_cons, hu]
      | succ k => simp [takeSettledBound, List.filter_cons, hu, ih]

theorem shouldRunScan_filter (k : Nat) (thr : Int) (log : List Operation) :
    shouldRunScan k thr (log.filter (fun op => !isUnsettled op)) =
      shouldRunScan k thr log := by
  simp only [shouldRunScan]
  rw [takeSettledBound_of_filter, ← takeSettledBound_filter, runScan_filter_settled]

set_option maxRecDepth 4000

/-- Claim C1 (corrected): for every log, `shouldRun` is true exactly when the
count of settled entries scanned reaches the 100-entry bound (counting a
`Stats` operation found as the 100th scanned entry), or the accumulator still
holds the `-1` sentinel (no `Stats` found and zero total summary bytes), or
the accumulator — the scanned terminal summaries' byte total minus one,
except when a `Stats` was found with zero bytes before it, in which case 0 —
exceeds the `10 * 2^30`-byte threshold; otherwise false.  In particular an
empty log yields true. -/
theorem shouldRun_eq_amendedSpec :
    (∀ log : List Operation, shouldRun log = shouldRunAmendedSpec log)
      ∧ shouldRun [] = true := by
  constructor
  · intro log
    unfold shouldRun shouldRunAmendedSpec
    rw [shouldRunScan_char]
  · decide

/-- Claim C1 as stated is false on the code: a log holding a single settled
backup that added 5 bytes has no `Stats` operation in its scanned window, so
the claim requires `shouldRun = true`, yet the code returns false (the
summary was accumulated onto the `-1` sentinel, giving 4, which is neither
the sentinel nor above the threshold); conversely a log of 99 settled
zero-byte backups followed by a `Stats` operation meets none of the claim's
three conditions (a baseline is found, as the 100th scanned entry, with
accumulator 0), so the claim requires false, yet the code returns true
(`howFarBack` reached 100). -/
theorem shouldRun_claimC1_counterexample :
    (shouldRunClaimC1 [mkBackupOp 5] = true ∧ shouldRun [mkBackupOp 5] = false)
  ∧ (shouldRunClaimC1 (List.replicate 99 (mkBackupOp 0) ++ [mkStatsOp]) = false
      ∧ shouldRun (List.replicate 99 (mkBackupOp 0) ++ [mkStatsOp]) = true) := by
  refine ⟨⟨?_, ?_⟩, ?_, ?_⟩ <;> decide

/-- Claim C2 (amended): for every log whose scanned window either contains a
`Stats` baseline or accumulated a positive terminal-summary byte total, if
fewer than 100 settled entries are scanned (at most 98 settled entries
precede the most recent `Stats` operation) and the post-baseline
terminal-summary bytes are at most the `10 * 2^30`-byte threshold, then
`shouldRun` is false. -/
theorem shouldRun_false_of_fresh_baseline (log : List Operation)
    (h1 : statsFoundIn (takeSettledBound statOperationsThreshold log) = true
        ∨ 0 < preBaselineBytes (takeSettledBound statOperationsThreshold log))
    (h2 : scannedCount (takeSettledBound statOperationsThreshold log)
        < statOperationsThreshold)
    (h3 : preBaselineBytes (takeSettledBound statOperationsThreshold log)
        ≤ statBytesThreshold) :
    shouldRun log = false := by
  unfold shouldRun
  rw [shouldRunScan_char]
  have hthr : (0 : Int) ≤ statBytesThreshold := by decide
  simp only [Bool.or_eq_false_iff, decide_eq_false_iff_not, not_lt, not_le]
  unfold baselineAccumulator
  refine ⟨⟨by omega, ?_⟩, ?_⟩
  · split_ifs with hc
    · exact not_false
    · rcases h1 with hsf | hpb
      · have hne : preBaselineBytes (takeSettledBound statOperationsThreshold log) ≠ 0 :=
          fun h => hc ⟨hsf, h⟩
        omega
      · omega
  · split_ifs with hc
    · omega
    · omega

/-- Witness for claim C2's amended theorem at the concrete log holding one
settled 7-byte backup: its hypotheses hold there and the decision is false. -/
theorem shouldRun_false_of_fresh_baseline_witness :
    (statsFoundIn (takeSettledBound statOperationsThreshold [mkBackupOp 7]) = true
        ∨ 0 < preBaselineBytes (takeSettledBound statOperationsThreshold [mkBackupOp 7]))
  ∧ scannedCount (takeSettledBound statOperationsThreshold [mkBackupOp 7])
      < statOperationsThreshold
  ∧ preBaselineBytes (takeSettledBound statOperationsThreshold [mkBackupOp 7])
      ≤ statBytesThreshold
  ∧ shouldRun [mkBackupOp 7] = false :=
  ⟨Or.inr (by decide), by decide, by decide,
    shouldRun_false_of_fresh_baseline [mkBackupOp 7] (Or.inr (by decide))
      (by decide) (by decide)⟩

/-- Claim C2 as stated is false on the code at two inputs where all of its
hypotheses hold yet `shouldRun` is true: the empty log (no `Stats`, zero
settled entries, zero bytes — the sentinel path fires), and a log of 99
settled zero-byte backups followed by a `Stats` operation (99 < 100 settled
entries precede the baseline, post-baseline bytes 0 ≤ threshold, yet the
100-entry bound is consumed by the baseline itself and `howFarBack` reaches
100). -/
theorem shouldRun_claimC2_counterexample :
    (statsFoundIn (takeSettledBound statOperationsThreshold ([] : List Operation)) = false
      ∧ scannedCount (takeSettledBound statOperationsThreshold ([] : List Operation)) = 0
      ∧ preBaselineBytes (takeSettledBound statOperationsThreshold ([] : List Operation)) = 0
      ∧ shouldRun [] = true)
  ∧ (statsFoundIn (takeSettledBound statOperationsThreshold
        (List.replicate 99 (mkBackupOp 0) ++ [mkStatsOp])) = true
      ∧ scannedCount (takeSettledBound statOperationsThreshold
          (List.replicate 99 (mkBackupOp 0) ++ [mkStatsOp])) = 100
      ∧ preBaselineBytes (takeSettledBound statOperationsThreshold
          (List.replicate 99 (mkBackupOp 0) ++ [mkStatsOp])) = 0
      ∧ shouldRun (List.replicate 99 (mkBackupOp 0) ++ [mkStatsOp]) = true) := by
  refine ⟨⟨?_, ?_, ?_, ?_⟩, ?_, ?_, ?_, ?_⟩ <;> decide

/-- Claim C3 (amended): for a log whose five most recent settled entries are
backup operations each carrying a terminal summary of 3 GiB added, followed
further back by a `Stats` operation, the engine's accumulator reaches
15 GiB minus one byte (the five summaries are added onto the `-1` sentinel),
which exceeds the 10 GiB threshold, and `shouldRun` is true. -/
theorem shouldRun_scenarioB_amended :
    shouldRun (List.replicate 5 (mkBackupOp (3 * 1024 * 1024 * 1024)) ++ [mkStatsOp]) = true
  ∧ (runScan { bytesSinceLastStat := -1, howFarBack := 0 }
      (takeSettledBound statOperationsThreshold
        (List.replicate 5 (mkBackupOp (3 * 1024 * 1024 * 1024)) ++ [mkStatsOp]))).bytesSinceLastStat
      = 15 * 1024 * 1024 * 1024 - 1 := by
  refine ⟨?_, ?_⟩ <;> decide

/-- Claim C3 as stated is false on the code: when the most recent settled
entry is the `Stats` operation and the five 3-GiB backups lie further back,
the backward scan stops at the `Stats` entry immediately, accumulates
nothing, and returns false rather than the claimed true. -/
theorem shouldRun_claimC3_counterexample :
    shouldRun (mkStatsOp :: List.replicate 5 (mkBackupOp (3 * 1024 * 1024 * 1024))) = false := by
  decide

/-- Claim C4: unsettled (`PENDING`/`IN_PROGRESS`) entries are skipped without
consuming the bound: the settled entries of the delivered window are exactly
the most recent `k` settled entries of the log, and the decision is unchanged
when the unsettled entries are removed from the log, so interleaved unsettled
entries never displace settled entries out of the scanned window. -/
theorem shouldRun_window_ignores_unsettled (k : Nat) (thr : Int) (log : List Operation) :
    (takeSettledBound k log).filter (fun op => !isUnsettled op)
        = (log.filter (fun op => !isUnsettled op)).take k
  ∧ shouldRunScan k thr (log.filter (fun op => !isUnsettled op)) = shouldRunScan k thr log
  ∧ shouldRun (log.filter (fun op => !isUnsettled op)) = shouldRun log :=
  ⟨takeSettledBound_filter k log, shouldRunScan_filter k thr log,
    shouldRunScan_filter statOperationsThreshold statBytesThreshold log⟩

/-- A retention policy (`v1.RetentionPolicy`); its contents are irrelevant to
this component, which only tests its presence. -/
inductive RetentionPolicy
  | mk
  deriving DecidableEq, Repr

/-- A backup plan (`v1.Plan`), with the fields this component reads. -/
structure Plan where
  id : String
  repo : String
  retention : Option RetentionPolicy
  deriving DecidableEq, Repr

/-- `StatsTask.Name` (lines 40-42): `fmt.Sprintf("stats for plan %q", t.plan.Id)`. -/
def Name (plan : Plan) : String :=
  "stats for plan \"" ++ plan.id ++ "\""

/-- The collaborator outcomes a single poll can observe: the operation log
iteration either fails or yields the repository's history (newest first), and
persisting the new operation either succeeds or fails. -/
structure PollEnv where
  oplogView : Except String (List Operation)
  appendOk : Bool

/-- The task's single mutable slot `StatsTask.at`: the scheduled instant
(`*time.Time`, modelled as unix milliseconds; the field is named `atSlot`
because `at` is a Lean keyword). -/
structure TaskState where
  atSlot : Option Int
  deriving DecidableEq, Repr

/-- What one call of `StatsTask.Next` returns and does: the new task state,
the returned instant (`*time.Time`), and the operation appended to the log,
if any. -/
structure PollOutcome where
  state : TaskState
  ret : Option Int
  appended : Option Operation
  deriving DecidableEq, Repr

/-- `StatsTask.shouldRun` including its error path (lines 63-65): an
iteration failure is wrapped (`iterate oplog: ...`) and propagated together
with a false decision. -/
def shouldRunChecked (view : Except String (List Operation)) : Except String Bool :=
  match view with
  | Except.error e => Except.error ("iterate oplog: " ++ e)
  | Except.ok log => Except.ok (shouldRun log)

/-- `StatsTask.Next` (lines 79-105): consume the scheduled instant if set;
evaluate `shouldRun`, logging an evaluation error and treating it as a false
decision; on a positive decision construct a PENDING stats operation whose
start time is the consumed instant and hand it to the log (`setOperation` of
`TaskWithOperation`, modelled from the spec: the operation is persisted when
the append succeeds, and on a persistence failure the error is logged and nil
returned).  The `now` argument is unused, exactly as in the code. -/
def Next (env : PollEnv) (plan : Plan) (linkSnapshot : String) (st : TaskState)
    (now : Int) : PollOutcome :=
  match st.atSlot with
  | none => { state := st, ret := none, appended := none }
  | some ret =>
    let st' : TaskState := { atSlot := none }
    let sr := match shouldRunChecked env.oplogView with
      | Except.error _ => false
      | Except.ok b => b
    if !sr then { state := st', ret := none, appended := none }
    else
      let op : Operation :=
        { planId := plan.id, repoId := plan.repo, snapshotId := linkSnapshot,
          unixTimeStartMs := ret, status := OperationStatus.pending,
          op := OperationPayload.stats none }
      if env.appendOk then { state := st', ret := some ret, appended := some op }
      else { state := st', ret := none, appended := none }

/-- Repository configuration (`*v1.Repo`), used only as hook context. -/
structure RepoConfig where
  repoId : String
  deriving DecidableEq, Repr

/-- A resolved repository handle (`*RepoOrchestrator`): exposes its
configuration; the outcome of its statistics call is supplied by `RunEnv`. -/
structure RepoHandle where
  config : RepoConfig
  deriving DecidableEq, Repr

/-- Repository statistics (`*v1.RepoStats`); contents irrelevant here. -/
structure RepoStats where
  raw : Nat
  deriving DecidableEq, Repr

/-- The collaborator outcomes one `Run` call can observe: repository
resolution (`Orchestrator.GetRepo`) and the blocking statistics call
(`repo.Stats`). -/
structure RunEnv where
  getRepo : Except String RepoHandle
  stats : Except String RepoStats

/-- Hook trigger conditions (`v1.Hook_Condition`); only
`CONDITION_ANY_ERROR` is used by this component. -/
inductive HookCondition
  | anyError
  deriving DecidableEq, Repr

/-- The contextual variables passed to the hook executor (`hook.HookVars`):
the task's name and the error text. -/
structure HookVars where
  task : String
  error : String
  deriving DecidableEq, Repr

/-- One dispatch to the hook executor (`hookExecutor.ExecuteHooks`,
lines 132-137): the repository configuration passed (`none` models the
unresolved handle's empty configuration), the plan, the snapshot argument
(the literal empty string in the source), the trigger conditions and the
variables. -/
structure HookDispatch where
  repoConfig : Option RepoConfig
  planId : String
  snapshotId : String
  conditions : List HookCondition
  vars : HookVars
  deriving DecidableEq, Repr

/-- The observable outcome of one `StatsTask.Run` call: the returned error,
the final status and payload written to the task's operation (`none` when the
operation was never touched), the hook dispatches performed, and whether
repository resolution was reached. -/
structure RunResult where
  ret : Option String
  opStatus : Option OperationStatus
  opPayload : Option OperationPayload
  hooks : List HookDispatch
  resolutionAttempted : Bool
  deriving DecidableEq, Repr

/-- The message `fmt.Errorf("get repo %q: %w", t.plan.Repo, err)` produces. -/
def getRepoErr (repo e : String) : String :=
  "get repo \"" ++ repo ++ "\": " ++ e

/-- The message `fmt.Errorf("get stats: %w", err)` produces. -/
def getStatsErr (e : String) : String :=
  "get stats: " ++ e

/-- The body of the `runWithOpAndContext` callback in `StatsTask.Run`
(lines 112-129): resolve the repository, gather statistics, and on success
store them in the operation's stats payload. -/
def runBody (plan : Plan) (env : RunEnv) : Except String OperationPayload :=
  match env.getRepo with
  | Except.error e => Except.error (getRepoErr plan.repo e)
  | Except.ok _ =>
    match env.stats with
    | Except.error e => Except.error (getStatsErr e)
    | Except.ok s => Except.ok (OperationPayload.stats (some s.raw))

/-- Modelled from the spec: `TaskWithOperation.runWithOpAndContext` (not part
of the file under study) runs the callback against the task's operation and,
per the spec, "signals SUCCESS through the enclosing run-wrapper" on success
or "signals ERROR with the failure's message" on failure, returning the
callback's error. -/
def runWithOp (body : Except String OperationPayload) :
    OperationStatus × Option OperationPayload × Option String :=
  match body with
  | Except.ok payload => (OperationStatus.success, some payload, none)
  | Except.error e => (OperationStatus.error, none, some e)

/-- Modelled from the spec: the configuration the failure-hook dispatch uses.
`Run` re-resolves the handle best-effort (`repo, _ := t.orch.GetRepo(...)`,
line 131) and passes `repo.Config()`; per the spec, "if resolution itself
failed, hook dispatch proceeds with an empty/unresolved repo configuration"
(`RepoOrchestrator.Config` is not part of the file under study), modelled as
`none`. -/
def bestEffortConfig (env : RunEnv) : Option RepoConfig :=
  match env.getRepo with
  | Except.ok h => some h.config
  | Except.error _ => none

/-- `StatsTask.Run` (lines 107-141): a missing retention policy fails
immediately with a configuration error and no side effects; otherwise the
body runs under the run-wrapper; on failure the any-error hook is dispatched
synchronously — with the best-effort repository configuration, the task's
name and the error text — and the original error is returned. -/
def Run (plan : Plan) (env : RunEnv) : RunResult :=
  match plan.retention with
  | none =>
    { ret := some "plan does not have a retention policy", opStatus := none,
      opPayload := none, hooks := [], resolutionAttempted := false }
  | some _ =>
    match runWithOp (runBody plan env) with
    | (status, payload, none) =>
      { ret := none, opStatus := some status, opPayload := payload,
        hooks := [], resolutionAttempted := true }
    | (status, payload, some e) =>
      { ret := some e, opStatus := some status, opPayload := payload,
        hooks := [{ repoConfig := bestEffortConfig env, planId := plan.id,
                    snapshotId := "", conditions := [HookCondition.anyError],
                    vars := { task := Name plan, error := e } }],
        resolutionAttempted := true }

/-- Claim C5: the scheduled-instant slot is consumed exactly once per poll:
with an empty slot the poll returns not-due with no side effects and without
consulting any collaborator; with a set slot the state's slot is cleared in
every branch (positive, negative, errored decision, failed persistence), so a
second poll with no intervening schedule returns not-due with no side
effects. -/
theorem next_slot_consumed_exactly_once (env env2 : PollEnv) (plan : Plan)
    (snap : String) (st : TaskState) (now now2 : Int) :
    Next env plan snap { atSlot := none } now
        = { state := { atSlot := none }, ret := none, appended := none }
  ∧ (Next env plan snap st now).state.atSlot = none
  ∧ Next env2 plan snap (Next env plan snap st now).state now2
        = { state := (Next env plan snap st now).state, ret := none,
            appended := none } := by
  have hconsumed : ∀ (e : PollEnv) (n : Int),
      (Next e plan snap st n).state.atSlot = none := by
    intro e n
    rcases st with ⟨_ | r⟩
    · rfl
    · simp only [Next]
      split_ifs <;> rfl
  refine ⟨rfl, hconsumed env now, ?_⟩
  rcases hs : (Next env plan snap st now).state with ⟨a⟩
  have ha : a = none := by
    have h := hconsumed env now
    rw [hs] at h
    exact h
  subst ha
  rfl

/-- Claim C9: when the decision engine's evaluation fails during a poll (log
iteration error), the poll returns not-due, no PENDING operation is appended,
and the slot is simply consumed — the error is treated as a false decision
for this cycle with no retry. -/
theorem next_engine_error_not_due (e : String) (b : Bool) (plan : Plan)
    (snap : String) (r now : Int) :
    Next { oplogView := Except.error e, appendOk := b } plan snap
        { atSlot := some r } now
      = { state := { atSlot := none }, ret := none, appended := none } := rfl

/-- Claim C10: the poll is independent of its `now` argument — any two time
values produce identical outcomes — the returned instant is the stored
scheduled instant (or nothing), and any appended operation's start time
equals the consumed scheduled instant, never the poll time. -/
theorem next_independent_of_now (env : PollEnv) (plan : Plan) (snap : String)
    (st : TaskState) (r now now2 : Int) :
    Next env plan snap st now = Next env plan snap st now2
  ∧ ((Next env plan snap { atSlot := some r } now).ret = none
      ∨ (Next env plan snap { atSlot := some r } now).ret = some r)
  ∧ (Next env plan snap { atSlot := some r } now).appended.all
      (fun op => op.unixTimeStartMs == r) = true := by
  refine ⟨rfl, ?_, ?_⟩
  · simp only [Next]
    split_ifs <;> simp
  · simp only [Next]
    split_ifs <;> simp

/-- Claim C8: with a plan whose retention policy is absent, `Run` returns the
configuration error immediately: repository resolution is not reached, the
operation is untouched and no hook is dispatched, for every collaborator
behaviour. -/
theorem run_missing_retention_config_error (id repo : String) (env : RunEnv) :
    Run { id := id, repo := repo, retention := none } env
      = { ret := some "plan does not have a retention policy", opStatus := none,
          opPayload := none, hooks := [], resolutionAttempted := false } := rfl

/-- Claim C7: whenever repository resolution or statistics gathering fails
(and the retention policy is present), the operation is marked ERROR, exactly
one hook is dispatched with the single any-error trigger condition and
variables holding the task's name and the failure's text, and the original
error is returned. -/
theorem run_failure_dispatches_hook_once (id repo : String)
    (pol : RetentionPolicy) (e : String) (h : RepoHandle)
    (sv : Except String RepoStats) :
    Run { id := id, repo := repo, retention := some pol }
        { getRepo := Except.error e, stats := sv }
      = { ret := some (getRepoErr repo e),
          opStatus := some OperationStatus.error, opPayload := none,
          hooks := [{ repoConfig := none, planId := id, snapshotId := "",
                      conditions := [HookCondition.anyError],
                      vars := { task := Name { id := id, repo := repo,
                                                retention := some pol },
                                error := getRepoErr repo e } }],
          resolutionAttempted := true }
  ∧ Run { id := id, repo := repo, retention := some pol }
        { getRepo := Except.ok h, stats := Except.error e }
      = { ret := some (getStatsErr e),
          opStatus := some OperationStatus.error, opPayload := none,
          hooks := [{ repoConfig := some h.config, planId := id,
                      snapshotId := "",
                      conditions := [HookCondition.anyError],
                      vars := { task := Name { id := id, repo := repo,
                                                retention := some pol },
                                error := getStatsErr e } }],
          resolutionAttempted := true } :=
  ⟨rfl, rfl⟩

/-- Claim C6: when repository resolution fails, the failure hook is still
dispatched — with the empty/unresolved repository configuration — the
dispatch completes, and the original resolution error is returned
afterwards. -/
theorem run_hook_with_unresolved_repo (id repo : String)
    (pol : RetentionPolicy) (e : String) (sv : Except String RepoStats) :
    (Run { id := id, repo := repo, retention := some pol }
        { getRepo := Except.error e, stats := sv }).hooks.map
          HookDispatch.repoConfig = [none]
  ∧ (Run { id := id, repo := repo, retention := some pol }
        { getRepo := Except.error e, stats := sv }).ret
      = some (getRepoErr repo e) :=
  ⟨rfl, rfl⟩

end Backrest
